import Mathlib

/-!
Verification development for the Axon python agent wrapper
(`apps/axon_python/src/axon_python/agent_wrapper.py`).

The module is a FastAPI application holding a global registry
`agent_instances : dict[str, Agent]` and exposing endpoints to register an
agent, run it synchronously, run it with streaming, invoke one of its tools,
and append a log entry.  The external generation engine (pydantic_ai) is
opaque: its behaviour is a parameter of the embedded handlers.  Machine-level
details (JSON transport, uvicorn) are abstracted; the handlers' control flow,
membership checks, exception branches and status codes are embedded faithfully
from the source, including two slips in `create_agent`:

* the helper `_resolve_tools` referenced on the success path is only present
  as a commented-out block, so reaching that line raises a `NameError`;
* the duplicate-id `HTTPException(400, ...)` is raised inside the `try:`
  block whose final clause is `except Exception as e: raise
  HTTPException(status_code=500, detail=str(e))`, so it is re-raised with
  status 500.
-/

namespace Axon

/-- Flat JSON-like values, enough for prompts, tool arguments and results. -/
inductive Value where
  | vNull
  | vBool (b : Bool)
  | vInt (n : Int)
  | vStr (s : String)
deriving DecidableEq

/-- `json.dumps` on flat values (string escaping abstracted away). -/
def jsonDumps : Value → String
  | .vNull => "null"
  | .vBool true => "true"
  | .vBool false => "false"
  | .vInt n => toString n
  | .vStr s => "\x22" ++ s ++ "\x22"

/-- A python exception as the handlers can observe it: either a pydantic
`ValidationError` (carrying the structured `e.errors()` list and its `str`
rendering), a pydantic_ai `UnexpectedModelBehavior`, or any other exception
(class name plus `str(e)`). -/
inductive PyErr where
  | validationError (errs : List String) (s : String)
  | unexpectedModelBehavior (s : String)
  | other (typeName : String) (s : String)
deriving DecidableEq

/-- `e.__class__.__name__`. -/
def PyErr.className : PyErr → String
  | .validationError _ _ => "ValidationError"
  | .unexpectedModelBehavior _ => "UnexpectedModelBehavior"
  | .other t _ => t

/-- `str(e)`. -/
def PyErr.strMsg : PyErr → String
  | .validationError _ s => s
  | .unexpectedModelBehavior s => s
  | .other _ s => s

/-- `str(e)` for a `KeyError` raised by `d[k]` on a missing key
(python renders the key with quotes; the exact quoting is abstracted). -/
def keyErrorStr (k : String) : String := "KeyError: " ++ k

/-- `str(e)` for a starlette `HTTPException` (status code and detail). -/
def strHTTPException (status : Nat) (detail : String) : String :=
  toString status ++ ": " ++ detail

/-- A tool implementation: called with the caller-supplied named arguments
(`tool.function(**tool_args)`); a raised exception is modelled as `.error`
carrying `str(e)`. -/
def ToolFn : Type := List (String × Value) → Except String Value

/-- An agent definition as constructed by `Agent(model=..., system_prompt=...,
tools=..., result_type=...)`: the tool table maps a tool name to its
implementation, `result_type` records the declared result fields. -/
structure Agent where
  model : String
  system_prompt : String
  tools : List (String × ToolFn) := []
  result_type : List (String × String) := []

/-- The registry `agent_instances : dict[str, Agent]`, as an association
list keyed by agent id. -/
def Registry : Type := List (String × Agent)

/-- Dictionary lookup `agent_instances[agent_id]` / membership `in`. -/
def Registry.lookup (reg : Registry) (id : String) : Option Agent :=
  List.lookup id reg

/-- Modelled from the spec: the pre-registered agent `example_agent` is
imported from the agents module, which is not part of the analysed source.
Per the spec an agent is a bundle of model reference, instruction text, tool
table and optional result schema; its exact contents do not matter here. -/
def example_agent : Agent :=
  { model := "openai:gpt-4o", system_prompt := "You are a helpful assistant." }

/-- Modelled from the spec: the pre-registered agent `support_agent` from the
bank-support agents module, likewise external to the analysed source. -/
def support_agent : Agent :=
  { model := "openai:gpt-4o", system_prompt := "You are a bank support agent." }

/-- Initial value of the global registry:
`agent_instances = {"example_agent": example_agent, "bank_support_agent": support_agent}`. -/
def init_registry : Registry :=
  [("example_agent", example_agent), ("bank_support_agent", support_agent)]

/-! ## Registration (`POST /agents`, `create_agent`) -/

/-- The JSON payload of a registration request, with the fields the handler
actually reads. -/
structure CreatePayload where
  agent_id : String
  model : String
  system_prompt : String
  tools : List Value := []
  result_type : List (String × String) := []

/-- Outcome of `create_agent`, one constructor per way the handler can
answer: the success `JSONResponse`, the `except ValidationError` branch
(status 400), and the `except Exception` branch (status 500, detail
`str(e)`). -/
inductive CreateResponse where
  | success (agent_id : String)
  | validationErrorResp (errs : List String)
  | unknownResp (detail : String)
deriving DecidableEq

/-- HTTP status code of a `CreateResponse`. -/
def CreateResponse.status : CreateResponse → Nat
  | .success _ => 200
  | .validationErrorResp _ => 400
  | .unknownResp _ => 500

/-- Whether the registration answer is the success response. -/
def CreateResponse.isSuccess : CreateResponse → Bool
  | .success _ => true
  | _ => false

/-- `str(e)` of the `NameError` raised on the fresh-id path: line 154 calls
`_resolve_tools(data.get("tools", []))`, but the definition of
`_resolve_tools` (lines 71-83) is commented out, so the name is unbound. -/
def nameErrorResolveTools : String :=
  "NameError: name _resolve_tools is not defined"

/-- `create_agent` (source lines 114-172).  Inside `try:` the handler first
checks `if agent_id in agent_instances` and raises `HTTPException(400,
"Agent with this ID already exists")`; that exception is itself caught by
the trailing `except Exception as e` and re-raised as
`HTTPException(500, str(e))`.  On a fresh id the handler next evaluates
`_resolve_tools(...)`, which raises `NameError` (the helper is commented
out), again caught by `except Exception` and surfaced with status 500; the
insert `agent_instances[agent_id] = agent` on line 165 is never reached, so
the registry is unchanged on every path. -/
def create_agent (reg : Registry) (p : CreatePayload) :
    Registry × CreateResponse :=
  (reg,
   if (reg.lookup p.agent_id).isSome then
     .unknownResp (strHTTPException 400 "Agent with this ID already exists")
   else
     .unknownResp nameErrorResolveTools)

/-- `n` registration attempts for the same payload, applied in sequence.
Under asyncio's cooperative scheduling this is the faithful concurrency
model: `create_agent` has no `await` between its membership check and any
later statement, so concurrent handlers interleave only at whole-handler
granularity for that critical section. -/
def registerRepeatedly : Nat → Registry → CreatePayload →
    Registry × List CreateResponse
  | 0, reg, _ => (reg, [])
  | n + 1, reg, p =>
    let step := create_agent reg p
    let rest := registerRepeatedly n step.1 p
    (rest.1, step.2 :: rest.2)

/-! ## Synchronous execution (`POST /agents/.../run_sync`, `run_agent_sync`) -/

/-- The request dict of a run: `prompt` may be absent (the handler accesses
`request_data["prompt"]`, raising `KeyError` when missing); the optional
fields are fetched with `.get` and passed through to the engine. -/
structure RunRequest where
  prompt : Option String := none
  message_history : Option Value := none
  model_settings : Option Value := none
  usage_limits : Option Value := none

/-- What a call `agent.run_sync(...)` into the external engine does: either
return a result object (`result.data`, `result.usage`, `result.messages`) or
raise an exception. -/
inductive SyncEngineOutcome where
  | success (data : Value) (usage : Value) (messages : List Value)
  | failure (e : PyErr)

/-- The behaviour of the external engine on a synchronous run, given the
agent, the prompt and the rest of the request. -/
def SyncEngine : Type := Agent → String → RunRequest → SyncEngineOutcome

/-- Outcome of `run_agent_sync`, one constructor per branch of the handler:
success `JSONResponse`, the 404 unknown-agent check, `except
ValidationError` (400, detail `e.errors()`), `except UnexpectedModelBehavior`
(500, detail prefixed), and `except Exception` (500, detail `str(e)`). -/
inductive SyncResponse where
  | success (data : Value) (usage : Value) (messages : List Value)
  | notFound
  | validationErrorResp (errs : List String)
  | engineBehaviorResp (detail : String)
  | unknownResp (detail : String)
deriving DecidableEq

/-- HTTP status code of a `SyncResponse`. -/
def SyncResponse.status : SyncResponse → Nat
  | .success _ _ _ => 200
  | .notFound => 404
  | .validationErrorResp _ => 400
  | .engineBehaviorResp _ => 500
  | .unknownResp _ => 500

/-- The three `except` clauses of `run_agent_sync` (source lines 209-217):
`ValidationError` becomes 400 with `e.errors()`, `UnexpectedModelBehavior`
becomes 500 with detail `"Unexpected model behavior: " + str(e)`, anything
else becomes 500 with `str(e)`. -/
def syncErrorResponse : PyErr → SyncResponse
  | .validationError errs _ => .validationErrorResp errs
  | .unexpectedModelBehavior s =>
      .engineBehaviorResp ("Unexpected model behavior: " ++ s)
  | .other _ s => .unknownResp s

/-- `run_agent_sync` (source lines 174-217): 404 when the id is not in the
registry; otherwise `request_data["prompt"]` is read inside the `try:`
(a missing key raises `KeyError`, caught only by `except Exception`, hence
status 500 with `str(e)`); otherwise the engine runs and its result or
exception is surfaced per `syncErrorResponse`.  The handler never writes to
`agent_instances`, so the registry is returned unchanged. -/
def run_agent_sync (reg : Registry) (agent_id : String)
    (request_data : RunRequest) (eng : SyncEngine) :
    Registry × SyncResponse :=
  (reg,
   match reg.lookup agent_id with
   | none => .notFound
   | some agent =>
     match request_data.prompt with
     | none => .unknownResp (keyErrorStr "prompt")
     | some p =>
       match eng agent p request_data with
       | .success d u ms => .success d u ms
       | .failure e => syncErrorResponse e)

/-! ## Streaming execution (`run_and_stream`, `run_agent_stream`) -/

/-- One step of iterating `result.stream_text()`: the iterator either yields
a text part or raises. -/
inductive StreamStep where
  | part (s : String)
  | raise (e : PyErr)
deriving DecidableEq

/-- The behaviour of one opened engine stream session: the iteration steps of
`stream_text()`, and what computing/serialising the final
`result.data` / `result.usage()` does once iteration ends normally. -/
structure EngineStreamBehavior where
  steps : List StreamStep
  final : Except PyErr (Value × Value)

/-- Opening a stream session (`agent.run_stream(...)` plus entering the
`async with`): may itself raise before any event is produced. -/
def StreamEngine : Type := Agent → String → RunRequest → Except PyErr EngineStreamBehavior

/-- One framed unit yielded by the streaming generator, discriminated by its
`status` field: a chunk `{"status": "chunk", "data": ...}`, the completion
message `{"status": "complete", "result": ..., "usage": ...}`, or the error
message `{"status": "error", "error_type": ..., "message": ...}`. -/
inductive StreamEvent where
  | chunk (data : String)
  | complete (result : Value) (usage : Value)
  | error (error_type : String) (message : String)
deriving DecidableEq

/-- A terminal event is a `complete` or an `error`. -/
def StreamEvent.isTerminal : StreamEvent → Bool
  | .chunk _ => false
  | .complete _ _ => true
  | .error _ _ => true

/-- The body of `run_and_stream` once the session is open (the `try:` block,
source lines 331-354): each successfully yielded part becomes a chunk event;
if iteration ends normally the final result is computed and one `complete`
event is yielded; any exception inside the `try:` — during iteration or
while building the completion message — reaches the single `except Exception`
clause, which yields one `error` event carrying `e.__class__.__name__` and
`str(e)`, after which the generator ends. -/
def streamBody : List StreamStep → Except PyErr (Value × Value) → List StreamEvent
  | [], fin =>
    match fin with
    | .ok (d, u) => [.complete d u]
    | .error e => [.error e.className e.strMsg]
  | .part s :: rest, fin => .chunk s :: streamBody rest fin
  | .raise e :: _, _ => [.error e.className e.strMsg]

/-- `run_and_stream` (source lines 322-354): `request_data["prompt"]` and the
entry into `async with agent.run_stream(...)` happen before the `try:`; an
exception there propagates out of the generator and no event is ever yielded
(the `.error` case).  Once the session is open, the yielded events are
`streamBody`. -/
def run_and_stream (agent : Agent) (request_data : RunRequest)
    (eng : StreamEngine) : Except PyErr (List StreamEvent) :=
  match request_data.prompt with
  | none => .error (.other "KeyError" (keyErrorStr "prompt"))
  | some p =>
    match eng agent p request_data with
    | .error e => .error e
    | .ok b => .ok (streamBody b.steps b.final)

/-- Outcome of `run_agent_stream`: the 404 `PlainTextResponse` for an unknown
id, or the `StreamingResponse` wrapping the generator. -/
inductive StreamHttpResponse where
  | notFoundText
  | streaming (body : Except PyErr (List StreamEvent))

/-- HTTP status code of a `StreamHttpResponse`. -/
def StreamHttpResponse.status : StreamHttpResponse → Nat
  | .notFoundText => 404
  | .streaming _ => 200

/-- `run_agent_stream` (source lines 356-363): 404 when the id is unknown,
otherwise a streaming response around `run_and_stream`.  No registry
write. -/
def run_agent_stream (reg : Registry) (agent_id : String)
    (request_data : RunRequest) (eng : StreamEngine) :
    Registry × StreamHttpResponse :=
  (reg,
   match reg.lookup agent_id with
   | none => .notFoundText
   | some agent => .streaming (run_and_stream agent request_data eng))

/-- The payloads of the chunk events of a stream, in delivery order. -/
def chunkPayloads (evs : List StreamEvent) : List String :=
  evs.filterMap fun ev =>
    match ev with
    | .chunk s => some s
    | _ => none

/-! ## Tool dispatch (`POST /agents/.../tool_call`, `call_tool`) -/

/-- The request dict of a tool call: the arguments are fetched with
`request_data.get("args", \x7b\x7d)`. -/
structure ToolRequest where
  args : Option (List (String × Value)) := none

/-- Outcome of `call_tool`: success `JSONResponse` with the dumped result,
404 for an unknown agent, 404 for a tool name absent from the agent's tool
table, and the `except Exception` branch (500, detail prefixed with
`"Error calling tool: "`). -/
inductive ToolResponse where
  | success (result_json : String)
  | agentNotFound
  | toolNotFound (tool_name : String) (agent_id : String)
  | toolError (detail : String)
deriving DecidableEq

/-- HTTP status code of a `ToolResponse`. -/
def ToolResponse.status : ToolResponse → Nat
  | .success _ => 200
  | .agentNotFound => 404
  | .toolNotFound _ _ => 404
  | .toolError _ => 500

/-- `call_tool` (source lines 221-256): 404 when the agent id is unknown; the
agent's tools are keyed by name and the requested name looked up (404 when
absent); otherwise `tool.function(**tool_args)` runs with
`tool_args = request_data.get("args", \x7b\x7d)` and its return value is
`json.dumps`-ed into the success response; an exception during the call is
caught and surfaced as 500 `"Error calling tool: " + str(e)`.  No registry
write. -/
def call_tool (reg : Registry) (agent_id : String) (tool_name : String)
    (request_data : ToolRequest) : Registry × ToolResponse :=
  (reg,
   match reg.lookup agent_id with
   | none => .agentNotFound
   | some agent =>
     match List.lookup tool_name agent.tools with
     | none => .toolNotFound tool_name agent_id
     | some f =>
       let tool_args := request_data.args.getD []
       match f tool_args with
       | .ok v => .success (jsonDumps v)
       | .error m => .toolError ("Error calling tool: " ++ m))

/-- Modelled from the spec: the example tool `add(a: int, b: int)` of the
end-to-end example; the tool implementations live in the agents module,
outside the analysed source.  Called with named arguments `a` and `b`, it
returns their sum; a wrong argument shape raises (is `.error`). -/
def addTool : ToolFn := fun args =>
  match List.lookup "a" args, List.lookup "b" args with
  | some (.vInt a), some (.vInt b) => .ok (.vInt (a + b))
  | _, _ => .error "add missing required integer arguments a and b"

/-- An agent whose tool table holds the `add` tool, for concrete runs of the
tool dispatcher. -/
def addAgent : Agent :=
  { model := "openai:gpt-4o", system_prompt := "adder",
    tools := [("add", addTool)] }

/-- A registry holding `addAgent` under id `A`. -/
def regWithA : Registry := ("A", addAgent) :: init_registry

/-! ## Log endpoint (`POST /agents/.../log`, `log_message`) -/

/-- A validated log entry `\x7btimestamp, level, message\x7d`. -/
structure LogEntry where
  timestamp : String
  level : String
  message : String

/-- Outcome of `log_message`: the handler body is a `print` plus
`JSONResponse(\x7b"status": "success"\x7d)`; there is no other return path. -/
inductive LogResponse where
  | success
deriving DecidableEq

/-- HTTP status code of a `LogResponse`. -/
def LogResponse.status : LogResponse → Nat
  | .success => 200

/-- `log_message` (source lines 266-270): prints the entry and returns the
success response.  Note it performs no membership check on `agent_id` and
never touches the registry. -/
def log_message (reg : Registry) (agent_id : String) (entry : LogEntry) :
    Registry × LogResponse :=
  (reg, .success)

/-! ## Process-level operations -/

/-- One request handled by the process: each constructor carries the inputs
of the corresponding endpoint (engine behaviours included, since the engine
is external). -/
inductive Op where
  | createOp (p : CreatePayload)
  | runSyncOp (id : String) (req : RunRequest) (eng : SyncEngine)
  | runStreamOp (id : String) (req : RunRequest) (eng : StreamEngine)
  | toolCallOp (id : String) (tool_name : String) (req : ToolRequest)
  | logOp (id : String) (entry : LogEntry)

/-- Effect of one handled request on the registry. -/
def Op.apply (op : Op) (reg : Registry) : Registry :=
  match op with
  | .createOp p => (create_agent reg p).1
  | .runSyncOp id req eng => (run_agent_sync reg id req eng).1
  | .runStreamOp id req eng => (run_agent_stream reg id req eng).1
  | .toolCallOp id name req => (call_tool reg id name req).1
  | .logOp id e => (log_message reg id e).1

/-- The registry after a sequence of handled requests. -/
def applyOps (ops : List Op) (reg : Registry) : Registry :=
  ops.foldl (fun r op => op.apply r) reg

/-! ## Concrete inputs used in closed statements -/

/-- A registration payload for the fresh id `my_agent`. -/
def payloadMyAgent : CreatePayload :=
  { agent_id := "my_agent", model := "gpt-4o",
    system_prompt := "You are a helpful assistant." }

/-- A registration payload re-using the pre-registered id `example_agent`. -/
def payloadExampleAgent : CreatePayload :=
  { agent_id := "example_agent", model := "gpt-4o",
    system_prompt := "You are a helpful assistant." }

/-- A run request with a prompt. -/
def reqHi : RunRequest := { prompt := some "hi" }

/-- A run request whose dict has no prompt key. -/
def emptyRunRequest : RunRequest := {}

/-- A synchronous engine that always succeeds trivially. -/
def engTrivial : SyncEngine := fun _ _ _ => .success Value.vNull Value.vNull []

/-- A synchronous engine whose run raises `UnexpectedModelBehavior`. -/
def engFailUMB : SyncEngine := fun _ _ _ =>
  .failure (.unexpectedModelBehavior "engine broke")

/-- A streaming engine producing one text part and a final result. -/
def engOneChunk : StreamEngine := fun _ _ _ =>
  .ok { steps := [.part "hello"], final := .ok (.vStr "hello", .vInt 1) }

/-- A streaming engine whose session fails to open. -/
def engStreamDown : StreamEngine := fun _ _ _ =>
  .error (.other "RuntimeError" "engine down")

/-- The event list produced by `engOneChunk` through `run_and_stream`. -/
def evsOneChunk : List StreamEvent :=
  [.chunk "hello", .complete (.vStr "hello") (.vInt 1)]

/-- A concrete log entry. -/
def logEntryEx : LogEntry :=
  { timestamp := "2025-01-01T00:00:00", level := "info", message := "hello" }

/-! ## Helper lemmas -/

/-- The stream body always consists of some chunk events followed by exactly
one terminal event. -/
theorem streamBody_shape (steps : List StreamStep)
    (fin : Except PyErr (Value × Value)) :
    ∃ (cs : List String) (t : StreamEvent),
      streamBody steps fin = cs.map StreamEvent.chunk ++ [t]
      ∧ t.isTerminal = true := by
  induction steps with
  | nil =>
    cases fin with
    | ok du =>
      obtain ⟨d, u⟩ := du
      exact ⟨[], .complete d u, rfl, rfl⟩
    | error e => exact ⟨[], .error e.className e.strMsg, rfl, rfl⟩
  | cons s rest ih =>
    cases s with
    | part str =>
      obtain ⟨cs, t, heq, ht⟩ := ih
      refine ⟨str :: cs, t, ?_, ht⟩
      simp [streamBody, heq]
    | raise e => exact ⟨[], .error e.className e.strMsg, rfl, rfl⟩

/-- Chunk events are not terminal, so filtering them out gives nothing. -/
theorem filter_isTerminal_map_chunk (cs : List String) :
    (cs.map StreamEvent.chunk).filter StreamEvent.isTerminal = [] := by
  induction cs with
  | nil => rfl
  | cons c cs ih => simp [List.filter_cons, StreamEvent.isTerminal, ih]

/-- The last element of a list ending in a singleton. -/
theorem getLast_append_single (l : List StreamEvent) (t : StreamEvent) :
    (l ++ [t]).getLast? = some t := by
  simp [List.getLast?_concat]

/-- `chunkPayloads` distributes over append. -/
theorem chunkPayloads_append (l1 l2 : List StreamEvent) :
    chunkPayloads (l1 ++ l2) = chunkPayloads l1 ++ chunkPayloads l2 := by
  simp [chunkPayloads, List.filterMap_append]

/-- The payloads of a pure chunk list are the underlying strings. -/
theorem chunkPayloads_map_chunk (cs : List String) :
    chunkPayloads (cs.map StreamEvent.chunk) = cs := by
  induction cs with
  | nil => rfl
  | cons c cs ih =>
    show c :: chunkPayloads (cs.map StreamEvent.chunk) = c :: cs
    rw [ih]

/-- A stream of parts that ends normally yields the chunk events in order
followed by the single completion event. -/
theorem streamBody_parts_only (parts : List String) (d u : Value) :
    streamBody (parts.map StreamStep.part) (.ok (d, u))
      = parts.map StreamEvent.chunk ++ [StreamEvent.complete d u] := by
  induction parts with
  | nil => rfl
  | cons s parts ih => simpa [streamBody] using ih

/-- No handled request ever changes the registry (registration would, but the
insert is unreachable in this source: see `create_agent`). -/
theorem op_apply_preserves_registry (op : Op) (reg : Registry) :
    op.apply reg = reg := by
  cases op <;> rfl

/-! ## Claims -/

/-- C1: the claim says registering a fresh id inserts the definition and
returns success, so that a subsequent lookup succeeds.  The code refutes it:
with `my_agent` absent from the initial registry, the handler reaches the
unbound name `_resolve_tools`, the resulting `NameError` is caught by the
generic except clause, the answer has status 500, the registry is unchanged,
and a subsequent lookup of the id still fails. -/
theorem create_agent_fresh_id_never_inserts :
    (init_registry.lookup "my_agent").isSome = false
    ∧ create_agent init_registry payloadMyAgent
        = (init_registry, CreateResponse.unknownResp nameErrorResolveTools)
    ∧ ((create_agent init_registry payloadMyAgent).2).status = 500
    ∧ ((create_agent init_registry payloadMyAgent).2).isSuccess = false
    ∧ (create_agent init_registry payloadMyAgent).1.lookup "my_agent" = none :=
  ⟨rfl, rfl, rfl, rfl, rfl⟩

/-- C2 (amended): for every streaming run whose prompt is present and whose
engine session opens — so that the generator reaches its try block and
produces events at all — the delivered event sequence contains exactly one
terminal event, and that terminal event is its last element. -/
theorem stream_exactly_one_terminal (agent : Agent) (req : RunRequest)
    (eng : StreamEngine) (evs : List StreamEvent)
    (h : run_and_stream agent req eng = .ok evs) :
    (evs.filter StreamEvent.isTerminal).length = 1
    ∧ evs.filter StreamEvent.isTerminal = evs.getLast?.toList := by
  unfold run_and_stream at h
  split at h
  · exact absurd h (by simp)
  · split at h
    · exact absurd h (by simp)
    · rename_i b _
      injection h with h2
      obtain ⟨cs, t, heq, ht⟩ := streamBody_shape b.steps b.final
      rw [← h2, heq]
      constructor
      · rw [List.filter_append, filter_isTerminal_map_chunk]
        simp [List.filter_cons, ht]
      · rw [List.filter_append, filter_isTerminal_map_chunk,
          getLast_append_single]
        simp [List.filter_cons, ht, Option.toList]

/-- C2 witness: the one-chunk stream produced by `engOneChunk` has exactly
one terminal event and it is last. -/
theorem stream_exactly_one_terminal_check :
    (evsOneChunk.filter StreamEvent.isTerminal).length = 1
    ∧ evsOneChunk.filter StreamEvent.isTerminal = evsOneChunk.getLast?.toList :=
  stream_exactly_one_terminal example_agent reqHi engOneChunk evsOneChunk rfl

/-- C2 counterexample: the claim as stated quantifies over every streaming
run.  On the registered id `example_agent` with a request missing the prompt
field, the handler's membership check passes and the streaming response is
returned (status 200, the channel opens), yet `request_data` is only read
inside the generator, before its try block: the generator raises before its
first yield, `run_and_stream` produces no event list, and the opened channel
delivers zero stream events — hence zero terminal events, not exactly one.
The same happens when entering the engine session raises. -/
theorem stream_missing_prompt_zero_events :
    (run_agent_stream init_registry "example_agent" emptyRunRequest
        engOneChunk).2
      = StreamHttpResponse.streaming
          (.error (PyErr.other "KeyError" (keyErrorStr "prompt")))
    ∧ ((run_agent_stream init_registry "example_agent" emptyRunRequest
        engOneChunk).2).status = 200
    ∧ run_and_stream example_agent emptyRunRequest engOneChunk
        = .error (PyErr.other "KeyError" (keyErrorStr "prompt")) :=
  ⟨rfl, rfl, rfl⟩

/-- C3: re-registering the present id `example_agent` leaves the registry
entry unchanged, but the answer is not the AlreadyExists classification the
claim requires: the duplicate-id exception with status 400 is re-caught by
the handler's own generic except clause and surfaced with status 500. -/
theorem create_agent_duplicate_surfaces_500 :
    create_agent init_registry payloadExampleAgent
      = (init_registry, CreateResponse.unknownResp
          (strHTTPException 400 "Agent with this ID already exists"))
    ∧ ((create_agent init_registry payloadExampleAgent).2).status = 500
    ∧ ((create_agent init_registry payloadExampleAgent).2).status ≠ 400
    ∧ (create_agent init_registry payloadExampleAgent).1.lookup "example_agent"
        = some example_agent :=
  ⟨rfl, rfl, by decide, rfl⟩

/-- C4 (amended): for an id absent from the registry, the run-synchronously,
run-with-streaming and invoke-tool handlers answer NotFound (status 404) and
leave the registry unchanged; the append-log handler performs no membership
check and answers success (status 200) for the same unknown id. -/
theorem unknown_id_run_tool_notfound_log_succeeds (reg : Registry)
    (id : String) (req : RunRequest) (treq : ToolRequest) (tname : String)
    (entry : LogEntry) (engS : SyncEngine) (engT : StreamEngine)
    (h : reg.lookup id = none) :
    run_agent_sync reg id req engS = (reg, SyncResponse.notFound)
    ∧ run_agent_stream reg id req engT = (reg, StreamHttpResponse.notFoundText)
    ∧ call_tool reg id tname treq = (reg, ToolResponse.agentNotFound)
    ∧ log_message reg id entry = (reg, LogResponse.success)
    ∧ SyncResponse.notFound.status = 404
    ∧ StreamHttpResponse.notFoundText.status = 404
    ∧ ToolResponse.agentNotFound.status = 404
    ∧ LogResponse.success.status = 200 := by
  refine ⟨?_, ?_, ?_, rfl, rfl, rfl, rfl, rfl⟩
  · simp [run_agent_sync, h]
  · simp [run_agent_stream, h]
  · simp [call_tool, h]

/-- C4 witness: the three run/tool operations on the unregistered id `ghost`
answer 404 while the log operation answers 200. -/
theorem unknown_id_run_tool_notfound_log_succeeds_check :
    run_agent_sync init_registry "ghost" emptyRunRequest engTrivial
      = (init_registry, SyncResponse.notFound)
    ∧ run_agent_stream init_registry "ghost" emptyRunRequest engStreamDown
      = (init_registry, StreamHttpResponse.notFoundText)
    ∧ call_tool init_registry "ghost" "add" { args := none }
      = (init_registry, ToolResponse.agentNotFound)
    ∧ log_message init_registry "ghost" logEntryEx
      = (init_registry, LogResponse.success)
    ∧ SyncResponse.notFound.status = 404
    ∧ StreamHttpResponse.notFoundText.status = 404
    ∧ ToolResponse.agentNotFound.status = 404
    ∧ LogResponse.success.status = 200 :=
  unknown_id_run_tool_notfound_log_succeeds init_registry "ghost"
    emptyRunRequest { args := none } "add" logEntryEx engTrivial
    engStreamDown rfl

/-- C4 counterexample: the append-log operation on the unregistered id
`ghost` answers success with status 200, not NotFound, refuting the claim as
stated. -/
theorem log_unknown_id_returns_success :
    init_registry.lookup "ghost" = none
    ∧ log_message init_registry "ghost" logEntryEx
        = (init_registry, LogResponse.success)
    ∧ ((log_message init_registry "ghost" logEntryEx).2).status = 200
    ∧ ((log_message init_registry "ghost" logEntryEx).2).status ≠ 404 :=
  ⟨rfl, rfl, rfl, by decide⟩

/-- C5 (amended): once the stream body is running, any failure — raised
during iteration or while producing the completion message — results in
exactly one error event, emitted after the already-delivered chunks as the
last event, carrying the exception class name as its classification and the
exception text `str(e)` as its message (the synchronous path classifies the
same exception into the same taxonomy branch, but formats its detail
differently, e.g. with an `Unexpected model behavior:` prefix); no fault
leaves the generator by any other mechanism. -/
theorem stream_post_start_single_error (pre : List String)
    (rest : List StreamStep) (e : PyErr)
    (fin : Except PyErr (Value × Value)) :
    streamBody (pre.map StreamStep.part ++ StreamStep.raise e :: rest) fin
      = pre.map StreamEvent.chunk
          ++ [StreamEvent.error e.className e.strMsg]
    ∧ streamBody (pre.map StreamStep.part) (.error e)
      = pre.map StreamEvent.chunk
          ++ [StreamEvent.error e.className e.strMsg] := by
  constructor
  · induction pre with
    | nil => rfl
    | cons s pre ih => simpa [streamBody] using ih
  · induction pre with
    | nil => rfl
    | cons s pre ih => simpa [streamBody] using ih

/-- C5 counterexample: for the same engine failure, the streamed error event
carries the raw exception text while the synchronous path formats its detail
with a prefix, so the two messages differ, refuting the claim as stated. -/
theorem stream_error_message_differs_from_sync :
    streamBody [StreamStep.raise (PyErr.unexpectedModelBehavior "engine broke")]
        (.ok (Value.vNull, Value.vNull))
      = [StreamEvent.error "UnexpectedModelBehavior" "engine broke"]
    ∧ (run_agent_sync regWithA "A" reqHi engFailUMB).2
      = SyncResponse.engineBehaviorResp "Unexpected model behavior: engine broke"
    ∧ ("engine broke" : String) ≠ "Unexpected model behavior: engine broke" :=
  ⟨rfl, rfl, by decide⟩

/-- C6: for a successful streaming run, the delivered chunk payloads are
exactly the engine's parts in delivery order (no reordering, no loss), the
last event is the single completion event, and — given the engine contract
that its final output is the concatenation of its parts — concatenating the
delivered chunk payloads yields exactly the completion event's result. -/
theorem stream_chunks_lossless_consistent (parts : List String) (d u : Value)
    (h : d = Value.vStr (String.join parts)) :
    chunkPayloads (streamBody (parts.map StreamStep.part) (.ok (d, u))) = parts
    ∧ (streamBody (parts.map StreamStep.part) (.ok (d, u))).getLast?
        = some (StreamEvent.complete d u)
    ∧ Value.vStr (String.join
        (chunkPayloads (streamBody (parts.map StreamStep.part) (.ok (d, u)))))
      = d := by
  have hb := streamBody_parts_only parts d u
  have hc : chunkPayloads (streamBody (parts.map StreamStep.part) (.ok (d, u)))
      = parts := by
    rw [hb, chunkPayloads_append, chunkPayloads_map_chunk]
    show parts ++ [] = parts
    exact List.append_nil parts
  refine ⟨hc, ?_, ?_⟩
  · rw [hb]; exact getLast_append_single _ _
  · rw [hc]; exact h.symm

/-- C6 witness: two parts `ab` and `cd` are delivered unchanged and their
concatenation `abcd` is the completion event's result. -/
theorem stream_chunks_lossless_consistent_check :
    chunkPayloads (streamBody (["ab", "cd"].map StreamStep.part)
        (.ok (Value.vStr "abcd", Value.vInt 1))) = ["ab", "cd"]
    ∧ (streamBody (["ab", "cd"].map StreamStep.part)
        (.ok (Value.vStr "abcd", Value.vInt 1))).getLast?
        = some (StreamEvent.complete (Value.vStr "abcd") (Value.vInt 1))
    ∧ Value.vStr (String.join
        (chunkPayloads (streamBody (["ab", "cd"].map StreamStep.part)
          (.ok (Value.vStr "abcd", Value.vInt 1)))))
      = Value.vStr "abcd" :=
  stream_chunks_lossless_consistent ["ab", "cd"] (Value.vStr "abcd")
    (Value.vInt 1) rfl

/-- C7 (amended): a synchronous run request missing the required prompt field
fails in the handler's generic except branch: the response is the Unknown
classification (status 500) carrying the KeyError rendering — not the
Validation classification, which this handler reserves for pydantic
ValidationError raised during the run. -/
theorem run_sync_missing_prompt_unknown (reg : Registry) (id : String)
    (agent : Agent) (req : RunRequest) (eng : SyncEngine)
    (h1 : reg.lookup id = some agent) (h2 : req.prompt = none) :
    run_agent_sync reg id req eng
      = (reg, SyncResponse.unknownResp (keyErrorStr "prompt"))
    ∧ ((run_agent_sync reg id req eng).2).status = 500 := by
  have hr : run_agent_sync reg id req eng
      = (reg, SyncResponse.unknownResp (keyErrorStr "prompt")) := by
    simp [run_agent_sync, h1, h2]
  refine ⟨hr, ?_⟩
  rw [hr]
  rfl

/-- C7 witness: running the registered `example_agent` with an empty request
dict yields the 500 Unknown answer carrying the KeyError text. -/
theorem run_sync_missing_prompt_unknown_check :
    run_agent_sync init_registry "example_agent" emptyRunRequest engTrivial
      = (init_registry, SyncResponse.unknownResp (keyErrorStr "prompt"))
    ∧ ((run_agent_sync init_registry "example_agent" emptyRunRequest
        engTrivial).2).status = 500 :=
  run_sync_missing_prompt_unknown init_registry "example_agent" example_agent
    emptyRunRequest engTrivial rfl rfl

/-- C7 counterexample: the malformed request (missing prompt) on a registered
agent is answered with status 500 (Unknown), not the claimed Validation
classification (status 400). -/
theorem run_sync_missing_prompt_not_validation :
    (run_agent_sync init_registry "example_agent" emptyRunRequest engTrivial).2
      = SyncResponse.unknownResp (keyErrorStr "prompt")
    ∧ ((run_agent_sync init_registry "example_agent" emptyRunRequest
        engTrivial).2).status = 500
    ∧ ((run_agent_sync init_registry "example_agent" emptyRunRequest
        engTrivial).2).status ≠ 400 :=
  ⟨rfl, rfl, by decide⟩

/-- C8: when the agent id resolves, the tool name is present in the agent's
tool table, and the tool function applied to the caller's named arguments
returns a value, `call_tool` invokes exactly that function on exactly those
arguments and answers with its json-serialised return value, leaving the
registry unchanged; the witness instantiates this at the tool
`add(a := 2, b := 3)` with result `5`. -/
theorem call_tool_invokes_function (reg : Registry) (id : String)
    (tname : String) (agent : Agent) (f : ToolFn)
    (args : List (String × Value)) (v : Value)
    (h1 : reg.lookup id = some agent)
    (h2 : List.lookup tname agent.tools = some f)
    (h3 : f args = .ok v) :
    call_tool reg id tname { args := some args }
      = (reg, ToolResponse.success (jsonDumps v)) := by
  simp [call_tool, h1, h2, h3]

/-- C8 witness: invoking `add` with the named arguments `a := 2` and `b := 3`
on the registered agent `A` returns the serialised result `5`. -/
theorem call_tool_invokes_function_check :
    call_tool regWithA "A" "add"
        { args := some [("a", Value.vInt 2), ("b", Value.vInt 3)] }
      = (regWithA, ToolResponse.success "5") :=
  call_tool_invokes_function regWithA "A" "add" addAgent addTool
    [("a", Value.vInt 2), ("b", Value.vInt 3)] (Value.vInt 5) rfl rfl rfl

/-- C9: the claim says N concurrent registrations of a fresh id yield one
success and N-1 AlreadyExists failures.  Under asyncio the check-and-insert
section of each handler runs without an interleaving point, so the attempts
compose sequentially; but every attempt fails before the insert (the
`_resolve_tools` NameError), so N = 3 attempts yield zero successes, not
exactly one. -/
theorem concurrent_registrations_all_fail :
    ((registerRepeatedly 3 init_registry payloadMyAgent).2.filter
        CreateResponse.isSuccess).length = 0
    ∧ ((registerRepeatedly 3 init_registry payloadMyAgent).2.filter
        CreateResponse.isSuccess).length ≠ 1
    ∧ (registerRepeatedly 3 init_registry payloadMyAgent).2.length = 3 :=
  ⟨rfl, by decide, rfl⟩

/-- C10: the registry initially holds the pre-registered agents under
`example_agent` and `bank_support_agent`, and after any sequence of handled
requests a lookup of either id still succeeds — no operation ever removes a
registry entry. -/
theorem registry_preregistered_agents_persist (ops : List Op) :
    (applyOps ops init_registry).lookup "example_agent" = some example_agent
    ∧ (applyOps ops init_registry).lookup "bank_support_agent"
        = some support_agent := by
  have h : applyOps ops init_registry = init_registry := by
    induction ops with
    | nil => rfl
    | cons op ops ih =>
      show applyOps ops (op.apply init_registry) = init_registry
      rw [op_apply_preserves_registry]
      exact ih
  rw [h]
  exact ⟨rfl, rfl⟩

end Axon
